import Mathlib

/-!
Verification of the `mw` OIDC/SSO token-verification subsystem.

Shallow embedding of `src/auth.py`: the discovery / JWKS caches
(`_get_discovery`, `_get_jwks`), signing-key lookup (`_find_jwk`), the token
verifier (`verify_sso_token`) and the bearer extractor
(`_extract_bearer_token`).

Modelling conventions:
* Python dicts that the code reads by string key become association lists
  (`dictGet` is `dict.get`, first binding wins; a dict is truthy iff
  non-empty, matching Python's `if cached and ...`).
* The two `requests.get` origin fetches become explicit oracle parameters of
  type `FetchResult _`: `.ok d` models a 2xx response whose JSON parses to
  `d`, `.error e` models a transport failure / timeout / non-success status
  (`raise_for_status`).  An uncaught `requests` exception is the
  `AuthError.fetch` constructor, distinct from `AuthError.http` which models
  a raised `fastapi.HTTPException`.
* Process-wide cache dicts `_DISCOVERY_CACHE` / `_JWKS_CACHE` become the
  `AuthState` record, threaded explicitly; `time.time()` becomes the `now`
  parameter.
* The PyJWT library calls (`jwt.get_unverified_header`, `jwt.decode`,
  `RSAAlgorithm.from_jwk`) are modelled abstractly but with PyJWT's
  documented control flow: a `Token` carries an optional parsed header
  (`none` = `get_unverified_header` raises), its payload claims, and
  `sigKey`, the abstract public key under which its signature verifies
  (`none` = the signature verifies under no key).  `jwt.decode` checks the
  declared algorithm, the signature, then `exp`, then `aud`, then `iss`,
  raising the distinct `ExpiredSignatureError` for expiry.
-/

/-- Python dict lookup `d.get(k)` on a dict modelled as an association list
(first binding wins). -/
def dictGet {α : Type} (d : List (String × α)) (k : String) : Option α :=
  (d.find? (fun p => p.1 == k)).map (fun p => p.2)

/-- Python `str.strip()`: drop whitespace from both ends. -/
def pyStrip (s : String) : String :=
  ⟨((s.data.dropWhile Char.isWhitespace).reverse.dropWhile Char.isWhitespace).reverse⟩

/-- Python `str.lower()` (per-character lowering). -/
def pyLower (s : String) : String := ⟨s.data.map Char.toLower⟩

/-- Python `s.startswith(p)`. -/
def pyStartsWith (s p : String) : Bool := s.data.take p.data.length == p.data

/-- The characters after the first space of `s`: `s.split(" ", 1)[1]`.
(The source only evaluates this under a guard that guarantees a space is
present, so the index is defined; on a space-free list we return `[]`.) -/
def afterFirstSpace : List Char → List Char
  | [] => []
  | c :: rest => if c = ' ' then rest else afterFirstSpace rest

/-- An OIDC discovery document: a JSON object whose consumed fields
(`issuer`, `jwks_uri`, `token_endpoint`) are strings. -/
abbrev Discovery := List (String × String)

/-- One JWK record: `kid` as stored under the `"kid"` key (absent ↦ `none`),
and `material`, the abstract result of `RSAAlgorithm.from_jwk` on the
record's algorithm-specific fields: `some pk` if a public key `pk` can be
constructed, `none` if construction raises. -/
structure Jwk where
  kid : Option String
  material : Option Nat
deriving DecidableEq, Repr

/-- A JWKS document: a JSON object; the only field the code consumes is
`"keys"`, a list of JWK records.  (Association-list form keeps Python's
dict truthiness: the dict is falsy iff it has no entries.) -/
abbrev Jwks := List (String × List Jwk)

/-- The decoded JOSE header of a token, as read by
`jwt.get_unverified_header`: `kid` and `alg` entries, each possibly
absent. -/
structure Header where
  kid : Option String
  alg : Option String
deriving DecidableEq, Repr

/-- A token's payload claims.  `exp`, `aud`, `iss` are the registered
claims the verifier validates; `rest` carries all other claims so that
"returned claims = encoded payload" is a contentful equality. -/
structure Claims where
  exp : Option Int
  aud : Option String
  iss : Option String
  rest : List (String × String)
deriving DecidableEq, Repr

/-- A bearer token, abstracting the serialized JWS:
* `header = none` models a malformed header segment
  (`jwt.get_unverified_header` raises `PyJWTError`);
* `claims` is the encoded payload;
* `sigKey = some pk` means the signature verifies under public key `pk`
  (signed by its private counterpart); `none` means it verifies under no
  key. -/
structure Token where
  header : Option Header
  claims : Claims
  sigKey : Option Nat
deriving DecidableEq, Repr

/-- The PyJWT exception raised by `jwt.decode`; every constructor is a
subclass of `PyJWTError`, and `expiredSignature` is the distinct
`ExpiredSignatureError`. -/
inductive PyJwtError where
  | decodeError
  | invalidAlgorithm
  | invalidSignature
  | expiredSignature
  | invalidAudience
  | invalidIssuer
  | missingClaim (name : String)
deriving DecidableEq, Repr

/-- Failure of one `requests.get`: transport error / timeout, or a
non-success HTTP status (raised by `raise_for_status`). -/
inductive FetchError where
  | transport
  | httpStatus (code : Nat)
deriving DecidableEq, Repr

/-- The result of one origin fetch (network oracle). -/
abbrev FetchResult (α : Type) := Except FetchError α

/-- An error escaping the auth module: `http s d` is a raised
`fastapi.HTTPException(status_code := s, detail := d)`; `fetch e` is an
uncaught `requests` exception propagating out of a fetch (the web framework
maps it to a 500-class response, not to a 401). -/
inductive AuthError where
  | http (statusCode : Nat) (detail : String)
  | fetch (e : FetchError)
deriving DecidableEq, Repr

/-- One module-level cache dict (`_DISCOVERY_CACHE` / `_JWKS_CACHE`):
`data` is `cache.get("data")`, `timestamp` the stored `"timestamp"` entry
(read with default `0`). -/
structure CacheEntry (α : Type) where
  data : Option α
  timestamp : Option Int
deriving DecidableEq, Repr

/-- The process-wide mutable state of the module: both caches. -/
structure AuthState where
  discoveryCache : CacheEntry Discovery
  jwksCache : CacheEntry Jwks
deriving DecidableEq, Repr

/-- The state at process start: both cache dicts empty. -/
def AuthState.initial : AuthState := ⟨⟨none, none⟩, ⟨none, none⟩⟩

/-- The environment-sourced configuration read by the code paths under
verification (raw values; stripping happens at the use sites, as in the
source). -/
structure Env where
  discoveryUrl : String
  clientId : String
  discoveryTtl : Int
  jwksTtl : Int
deriving DecidableEq, Repr

/-- Model of `_fetch_discovery`: resolve the discovery URL (500 configuration error
when blank, from `_get_discovery_url`), then GET it; a transport failure or
non-success status propagates as the `requests` exception. -/
def fetchDiscovery (env : Env) (netD : FetchResult Discovery) :
    Except AuthError Discovery :=
  if pyStrip env.discoveryUrl = "" then
    .error (.http 500 "SYNOLOGY_OIDC_DISCOVERY_URL is not configured")
  else
    match netD with
    | .error e => .error (.fetch e)
    | .ok d => .ok d

/-- Model of `_get_discovery`: serve the cached document when the cached data is
truthy and `now - cached_at < ttl`; otherwise fetch, store
`{data, timestamp := now}` on success, and return the fresh document.  A
failed fetch leaves the cache untouched. -/
def getDiscovery (env : Env) (netD : FetchResult Discovery) (now : Int)
    (st : AuthState) : Except AuthError Discovery × AuthState :=
  let ttl := env.discoveryTtl
  let cachedAt := st.discoveryCache.timestamp.getD 0
  let refresh : Except AuthError Discovery × AuthState :=
    match fetchDiscovery env netD with
    | .error e => (.error e, st)
    | .ok discovery =>
        (.ok discovery, { st with discoveryCache := ⟨some discovery, some now⟩ })
  match st.discoveryCache.data with
  | some cached =>
      if cached ≠ [] ∧ now - cachedAt < ttl then (.ok cached, st) else refresh
  | none => refresh

/-- Model of `_fetch_jwks`: GET the key-set URL; a transport failure or non-success
status propagates as the `requests` exception. -/
def fetchJwks (netJ : FetchResult Jwks) : Except AuthError Jwks :=
  match netJ with
  | .error e => .error (.fetch e)
  | .ok j => .ok j

/-- Model of `_get_jwks`: same TTL hit/miss logic against its own entry and TTL; on a
miss, obtain `jwks_uri` from `_get_discovery()` (500 configuration error
when the field is absent or falsy), fetch the key set, store it with the
current timestamp, and return it. -/
def getJwks (env : Env) (netD : FetchResult Discovery) (netJ : FetchResult Jwks)
    (now : Int) (st : AuthState) : Except AuthError Jwks × AuthState :=
  let ttl := env.jwksTtl
  let cachedAt := st.jwksCache.timestamp.getD 0
  let refresh : Except AuthError Jwks × AuthState :=
    match getDiscovery env netD now st with
    | (.error e, st₁) => (.error e, st₁)
    | (.ok discovery, st₁) =>
        match dictGet discovery "jwks_uri" with
        | none => (.error (.http 500 "jwks_uri is missing from discovery document"), st₁)
        | some uri =>
            if uri = "" then
              (.error (.http 500 "jwks_uri is missing from discovery document"), st₁)
            else
              match fetchJwks netJ with
              | .error e => (.error e, st₁)
              | .ok jwks =>
                  (.ok jwks, { st₁ with jwksCache := ⟨some jwks, some now⟩ })
  match st.jwksCache.data with
  | some cached =>
      if cached ≠ [] ∧ now - cachedAt < ttl then (.ok cached, st) else refresh
  | none => refresh

/-- Model of `_find_jwk`: scan `jwks.get("keys", [])` in order and return the first
record whose `kid` entry equals the wanted identifier. -/
def findJwk (kid : String) (jwks : Jwks) : Option Jwk :=
  ((dictGet jwks "keys").getD []).find? (fun key => key.kid == some kid)

/-- The `aud`/`iss` claim validation of `jwt.decode` (the `audience`
argument is a non-empty string at the call site; an absent or falsy `aud`
claim raises `MissingRequiredClaimError`; the issuer check is skipped
entirely when the `issuer` argument is `None`). -/
def jwtValidateAudIss (c : Claims) (audience : String) (issuer : Option String) :
    Except PyJwtError Claims :=
  match c.aud with
  | none => .error (.missingClaim "aud")
  | some a =>
      if a = "" then .error (.missingClaim "aud")
      else if a ≠ audience then .error .invalidAudience
      else
        match issuer with
        | none => .ok c
        | some i =>
            match c.iss with
            | none => .error (.missingClaim "iss")
            | some s => if s ≠ i then .error .invalidIssuer else .ok c

/-- Model of `jwt.decode(token, key, algorithms, audience, issuer)` with PyJWT's
default options: re-parse the header; require a declared `alg` contained in
`algorithms` (else `InvalidAlgorithmError`); verify the signature against
the given key; then validate claims — `exp` first (absent `exp` is
accepted; `exp ≤ now` raises the distinct `ExpiredSignatureError`), then
`aud`, then `iss`. -/
def jwtDecode (token : Token) (publicKey : Nat) (algorithms : List String)
    (audience : String) (issuer : Option String) (now : Int) :
    Except PyJwtError Claims :=
  match token.header with
  | none => .error .decodeError
  | some h =>
      match h.alg with
      | none => .error .invalidAlgorithm
      | some alg =>
          if alg ∉ algorithms then .error .invalidAlgorithm
          else if token.sigKey ≠ some publicKey then .error .invalidSignature
          else
            match token.claims.exp with
            | some e =>
                if e ≤ now then .error .expiredSignature
                else jwtValidateAudIss token.claims audience issuer
            | none => jwtValidateAudIss token.claims audience issuer

/-- The token-processing tail of `verify_sso_token` (everything after the
two cache reads, which is pure): parse the header, require a truthy `kid`,
find the JWK, construct the public key, resolve the audience (500
configuration error when blank), then decode — `ExpiredSignatureError`
becomes 401 "Token expired", every other `PyJWTError` becomes
401 "Invalid token". -/
def verifyTokenWithKeys (env : Env) (issuer : Option String) (jwks : Jwks)
    (now : Int) (token : Token) : Except AuthError Claims :=
  match token.header with
  | none => .error (.http 401 "Invalid token")
  | some unverifiedHeader =>
      match unverifiedHeader.kid with
      | none => .error (.http 401 "Invalid token")
      | some kid =>
          if kid = "" then .error (.http 401 "Invalid token")
          else
            match findJwk kid jwks with
            | none => .error (.http 401 "Invalid token")
            | some jwk =>
                match jwk.material with
                | none => .error (.http 401 "Invalid token")
                | some publicKey =>
                    let audience := pyStrip env.clientId
                    if audience = "" then
                      .error (.http 500 "SYNOLOGY_CLIENT_ID is not configured")
                    else
                      match jwtDecode token publicKey
                          [unverifiedHeader.alg.getD "RS256"] audience issuer now with
                      | .ok payload => .ok payload
                      | .error .expiredSignature => .error (.http 401 "Token expired")
                      | .error _ => .error (.http 401 "Invalid token")

/-- Model of `verify_sso_token`: read the discovery document (`issuer :=
discovery.get("issuer")`), read the key set, then run the pure
token-processing tail.  Cache-stage errors (including uncaught `requests`
exceptions) propagate before the token is even looked at. -/
def verifySsoToken (env : Env) (netD : FetchResult Discovery)
    (netJ : FetchResult Jwks) (now : Int) (token : Token) (st : AuthState) :
    Except AuthError Claims × AuthState :=
  match getDiscovery env netD now st with
  | (.error e, st₁) => (.error e, st₁)
  | (.ok discovery, st₁) =>
      let issuer := dictGet discovery "issuer"
      match getJwks env netD netJ now st₁ with
      | (.error e, st₂) => (.error e, st₂)
      | (.ok jwks, st₂) => (verifyTokenWithKeys env issuer jwks now token, st₂)

/-- Model of `_extract_bearer_token`: read the `authorization` header (default `""`),
require it to start, after lowering, with `"bearer "`, else 401 "Missing
token"; on success return everything after the first space, stripped. -/
def extractBearerToken (authHeader : Option String) : Except AuthError String :=
  let h := authHeader.getD ""
  if pyStartsWith (pyLower h) "bearer " then
    .ok (pyStrip ⟨afterFirstSpace h.data⟩)
  else
    .error (.http 401 "Missing token")

/-! Helper lemmas about the two caches, shared by several claims below. -/

/-- Cache hit for the discovery cache: truthy data within the TTL window is
served unchanged, with no fetch and no state change. -/
lemma getDiscovery_hit (env : Env) (netD : FetchResult Discovery) (now : Int)
    (st : AuthState) (d : Discovery)
    (hd : st.discoveryCache.data = some d) (hne : d ≠ [])
    (hfresh : now - st.discoveryCache.timestamp.getD 0 < env.discoveryTtl) :
    getDiscovery env netD now st = (.ok d, st) := by
  unfold getDiscovery
  rw [hd]
  simp only [ne_eq, hne, not_false_eq_true, hfresh, and_self, if_true]

/-- Cache miss for the discovery cache (no entry, falsy entry, or stale
entry) with a succeeding fetch: the fresh document is stored with the
current timestamp and returned. -/
lemma getDiscovery_miss_ok (env : Env) (now : Int) (st : AuthState)
    (d' : Discovery) (hurl : pyStrip env.discoveryUrl ≠ "")
    (hmiss : ∀ d, st.discoveryCache.data = some d →
      d = [] ∨ env.discoveryTtl ≤ now - st.discoveryCache.timestamp.getD 0) :
    getDiscovery env (.ok d') now st =
      (.ok d', { st with discoveryCache := ⟨some d', some now⟩ }) := by
  unfold getDiscovery fetchDiscovery
  rcases hcd : st.discoveryCache.data with _ | d
  · simp only [hurl, if_neg, reduceIte]
  · rcases hmiss d hcd with h | h
    · subst h
      simp [hurl]
    · have : ¬ (d ≠ [] ∧ now - st.discoveryCache.timestamp.getD 0 < env.discoveryTtl) := by
        rintro ⟨-, hlt⟩
        omega
      simp [this, hurl]

/-- Cache miss for the discovery cache with a failing fetch: the error
propagates as the uncaught fetch exception and the state is unchanged. -/
lemma getDiscovery_miss_err (env : Env) (now : Int) (st : AuthState)
    (e : FetchError) (hurl : pyStrip env.discoveryUrl ≠ "")
    (hmiss : ∀ d, st.discoveryCache.data = some d →
      d = [] ∨ env.discoveryTtl ≤ now - st.discoveryCache.timestamp.getD 0) :
    getDiscovery env (.error e) now st = (.error (.fetch e), st) := by
  unfold getDiscovery fetchDiscovery
  rcases hcd : st.discoveryCache.data with _ | d
  · simp [hurl]
  · rcases hmiss d hcd with h | h
    · subst h
      simp [hurl]
    · have : ¬ (d ≠ [] ∧ now - st.discoveryCache.timestamp.getD 0 < env.discoveryTtl) := by
        rintro ⟨-, hlt⟩
        omega
      simp [this, hurl]

/-- Cache hit for the key-set cache: truthy data within the TTL window is
served unchanged, with no fetch and no state change. -/
lemma getJwks_hit (env : Env) (netD : FetchResult Discovery)
    (netJ : FetchResult Jwks) (now : Int) (st : AuthState) (j : Jwks)
    (hj : st.jwksCache.data = some j) (hne : j ≠ [])
    (hfresh : now - st.jwksCache.timestamp.getD 0 < env.jwksTtl) :
    getJwks env netD netJ now st = (.ok j, st) := by
  unfold getJwks
  rw [hj]
  simp only [ne_eq, hne, not_false_eq_true, hfresh, and_self, if_true]

/-- Cache miss for the key-set cache, with the discovery cache serving a
fresh document that carries a truthy `jwks_uri`, and a succeeding key-set
fetch: the fresh key set is stored with the current timestamp and
returned. -/
lemma getJwks_miss_ok (env : Env) (netD : FetchResult Discovery) (now : Int)
    (st : AuthState) (disc : Discovery) (j' : Jwks) (uri : String)
    (hd : st.discoveryCache.data = some disc) (hdne : disc ≠ [])
    (hdfresh : now - st.discoveryCache.timestamp.getD 0 < env.discoveryTtl)
    (hjmiss : ∀ j, st.jwksCache.data = some j →
      j = [] ∨ env.jwksTtl ≤ now - st.jwksCache.timestamp.getD 0)
    (huri : dictGet disc "jwks_uri" = some uri) (hune : uri ≠ "") :
    getJwks env netD (.ok j') now st =
      (.ok j', { st with jwksCache := ⟨some j', some now⟩ }) := by
  unfold getJwks fetchJwks
  rw [getDiscovery_hit env netD now st disc hd hdne hdfresh]
  rcases hcj : st.jwksCache.data with _ | j
  · simp [huri, hune]
  · rcases hjmiss j hcj with h | h
    · subst h
      simp [huri, hune]
    · have : ¬ (j ≠ [] ∧ now - st.jwksCache.timestamp.getD 0 < env.jwksTtl) := by
        rintro ⟨-, hlt⟩
        omega
      simp [this, huri, hune]

/-- Cache miss for the key-set cache with a failing key-set fetch: the
error propagates as the uncaught fetch exception and the state is
unchanged. -/
lemma getJwks_miss_err (env : Env) (netD : FetchResult Discovery) (now : Int)
    (st : AuthState) (disc : Discovery) (e : FetchError) (uri : String)
    (hd : st.discoveryCache.data = some disc) (hdne : disc ≠ [])
    (hdfresh : now - st.discoveryCache.timestamp.getD 0 < env.discoveryTtl)
    (hjmiss : ∀ j, st.jwksCache.data = some j →
      j = [] ∨ env.jwksTtl ≤ now - st.jwksCache.timestamp.getD 0)
    (huri : dictGet disc "jwks_uri" = some uri) (hune : uri ≠ "") :
    getJwks env netD (.error e) now st = (.error (.fetch e), st) := by
  unfold getJwks fetchJwks
  rw [getDiscovery_hit env netD now st disc hd hdne hdfresh]
  rcases hcj : st.jwksCache.data with _ | j
  · simp [huri, hune]
  · rcases hjmiss j hcj with h | h
    · subst h
      simp [huri, hune]
    · have : ¬ (j ≠ [] ∧ now - st.jwksCache.timestamp.getD 0 < env.jwksTtl) := by
        rintro ⟨-, hlt⟩
        omega
      simp [this, huri, hune]

/-- When both caches serve fresh truthy entries, `verify_sso_token` reduces
to the pure token-processing tail with the cached documents and performs no
state change. -/
lemma verifySsoToken_cached (env : Env) (netD : FetchResult Discovery)
    (netJ : FetchResult Jwks) (now : Int) (token : Token) (st : AuthState)
    (disc : Discovery) (j : Jwks)
    (hd : st.discoveryCache.data = some disc) (hdne : disc ≠ [])
    (hdfresh : now - st.discoveryCache.timestamp.getD 0 < env.discoveryTtl)
    (hj : st.jwksCache.data = some j) (hjne : j ≠ [])
    (hjfresh : now - st.jwksCache.timestamp.getD 0 < env.jwksTtl) :
    verifySsoToken env netD netJ now token st =
      (verifyTokenWithKeys env (dictGet disc "issuer") j now token, st) := by
  unfold verifySsoToken
  rw [getDiscovery_hit env netD now st disc hd hdne hdfresh]
  dsimp only
  rw [getJwks_hit env netD netJ now st j hj hjne hjfresh]


/-- Reading the discovery cache never touches the key-set cache. -/
lemma getDiscovery_preserves_jwksCache (env : Env) (netD : FetchResult Discovery)
    (now : Int) (st : AuthState) :
    (getDiscovery env netD now st).2.jwksCache = st.jwksCache := by
  unfold getDiscovery
  rcases hF : fetchDiscovery env netD with e | d' <;>
    rcases hcd : st.discoveryCache.data with _ | d <;>
    simp only [hF, hcd] <;>
    first
      | rfl
      | (split <;> rfl)

/-- Whenever `_get_discovery` raises, its cache entry is exactly as it was
before the call (the whole state is unchanged). -/
lemma getDiscovery_error_state (env : Env) (netD : FetchResult Discovery)
    (now : Int) (st : AuthState) (err : AuthError)
    (h : (getDiscovery env netD now st).1 = .error err) :
    (getDiscovery env netD now st).2 = st := by
  unfold getDiscovery at h ⊢
  rcases hF : fetchDiscovery env netD with e | d' <;>
    rcases hcd : st.discoveryCache.data with _ | d <;>
    simp only [hF, hcd] at h ⊢
  case ok.none => simp at h
  case error.some =>
    by_cases hc : ¬d = [] ∧ now - st.discoveryCache.timestamp.getD 0 < env.discoveryTtl
    · rw [if_pos hc] at h
      simp at h
    · rw [if_neg hc]
  case ok.some =>
    by_cases hc : ¬d = [] ∧ now - st.discoveryCache.timestamp.getD 0 < env.discoveryTtl
    · rw [if_pos hc]
    · rw [if_neg hc] at h
      simp at h

/-- Whenever `_get_jwks` raises, its cache entry is exactly as it was
before the call (the discovery cache may have been refreshed on the way,
but the key-set entry is untouched). -/
lemma getJwks_error_jwksCache (env : Env) (netD : FetchResult Discovery)
    (netJ : FetchResult Jwks) (now : Int) (st : AuthState) (err : AuthError)
    (h : (getJwks env netD netJ now st).1 = .error err) :
    (getJwks env netD netJ now st).2.jwksCache = st.jwksCache := by
  have hpres := getDiscovery_preserves_jwksCache env netD now st
  unfold getJwks at h ⊢
  rcases hG : getDiscovery env netD now st with ⟨rG, st₁⟩
  rw [hG] at hpres
  rcases hjc : st.jwksCache.data with _ | j <;>
    simp only [hG, hjc] at h ⊢
  · rcases rG with e | disc <;> simp only at h ⊢
    · exact hpres
    · rcases huri : dictGet disc "jwks_uri" with _ | uri <;> simp only [huri] at h ⊢
      · exact hpres
      · by_cases hu : uri = ""
        · rw [if_pos hu]
          exact hpres
        · rw [if_neg hu] at h ⊢
          rcases hJ : fetchJwks netJ with e | j' <;> simp only [hJ] at h ⊢
          · exact hpres
          · simp at h
  · by_cases hc : ¬j = [] ∧ now - st.jwksCache.timestamp.getD 0 < env.jwksTtl
    · rw [if_pos hc] at h
      simp at h
    · rw [if_neg hc] at h ⊢
      rcases rG with e | disc <;> simp only at h ⊢
      · exact hpres
      · rcases huri : dictGet disc "jwks_uri" with _ | uri <;> simp only [huri] at h ⊢
        · exact hpres
        · by_cases hu : uri = ""
          · rw [if_pos hu]
            exact hpres
          · rw [if_neg hu] at h ⊢
            rcases hJ : fetchJwks netJ with e | j' <;> simp only [hJ] at h ⊢
            · exact hpres
            · simp at h

/-- C3: if the discovery document in effect contains no `issuer` field,
`verify_sso_token` performs no issuer check at all: a token with a valid
signature under a matching `kid`, audience equal to the configured client
identifier, and unexpired `exp` is accepted and its claims returned,
regardless of the value or absence of its `iss` claim (the `claims`
variable below is arbitrary in its `iss` field). -/
theorem c3_missing_issuer_field_skips_issuer_check
    (env : Env) (netD : FetchResult Discovery) (netJ : FetchResult Jwks)
    (now e : Int) (st : AuthState) (disc : Discovery) (jwks : Jwks)
    (kid alg : String) (claims : Claims) (jwk : Jwk) (pk : Nat)
    (hd : st.discoveryCache.data = some disc) (hdne : disc ≠ [])
    (hdfresh : now - st.discoveryCache.timestamp.getD 0 < env.discoveryTtl)
    (hj : st.jwksCache.data = some jwks) (hjne : jwks ≠ [])
    (hjfresh : now - st.jwksCache.timestamp.getD 0 < env.jwksTtl)
    (hiss : dictGet disc "issuer" = none)
    (hkid : kid ≠ "")
    (hfind : findJwk kid jwks = some jwk)
    (hmat : jwk.material = some pk)
    (haudcfg : pyStrip env.clientId ≠ "")
    (haud : claims.aud = some (pyStrip env.clientId))
    (hexp : claims.exp = some e) (hfut : now < e) :
    verifySsoToken env netD netJ now
      ⟨some ⟨some kid, some alg⟩, claims, some pk⟩ st = (.ok claims, st) := by
  rw [verifySsoToken_cached env netD netJ now _ st disc jwks hd hdne hdfresh hj hjne hjfresh,
    hiss]
  have hnexp : ¬ e ≤ now := by omega
  simp [verifyTokenWithKeys, jwtDecode, jwtValidateAudIss, hkid, hfind, hmat, haudcfg, haud,
    hexp, hnexp]

/-- Witness for C3 at a concrete input: the discovery document has no
`issuer` field and the token carries `iss = "https://evil.example"`, yet
verification succeeds. -/
theorem c3_witness :
    verifySsoToken ⟨"https://idp/disc", "client-1", 3600, 3600⟩
      (.ok []) (.ok []) 0
      ⟨some ⟨some "k1", some "RS256"⟩,
        ⟨some 1000, some "client-1", some "https://evil.example", [("sub", "alice")]⟩,
        some 7⟩
      ⟨⟨some [("jwks_uri", "https://idp/keys")], some 0⟩,
        ⟨some [("keys", [⟨some "k1", some 7⟩])], some 0⟩⟩ =
    (.ok ⟨some 1000, some "client-1", some "https://evil.example", [("sub", "alice")]⟩,
      ⟨⟨some [("jwks_uri", "https://idp/keys")], some 0⟩,
        ⟨some [("keys", [⟨some "k1", some 7⟩])], some 0⟩⟩) := by
  exact c3_missing_issuer_field_skips_issuer_check _ _ _ 0 1000 _ _ _ "k1" "RS256" _ _ 7
    rfl (by decide) (by decide) rfl (by decide) (by decide) (by decide) (by decide) rfl rfl
    (by decide) (by decide) rfl (by decide)

/-- C4: round-trip — a token signed with the private counterpart of a key
present in the key set (record whose `kid` matches the token header), with
`aud` equal to the configured client identifier, `iss` equal to the
discovery document's issuer, and `exp` in the future, verifies successfully
and the returned claims mapping is exactly the payload that was encoded
(the token's `claims` field, returned verbatim). -/
theorem c4_round_trip_valid_token_returns_payload
    (env : Env) (netD : FetchResult Discovery) (netJ : FetchResult Jwks)
    (now e : Int) (st : AuthState) (disc : Discovery) (jwks : Jwks)
    (kid alg issVal : String) (claims : Claims) (jwk : Jwk) (pk : Nat)
    (hd : st.discoveryCache.data = some disc) (hdne : disc ≠ [])
    (hdfresh : now - st.discoveryCache.timestamp.getD 0 < env.discoveryTtl)
    (hj : st.jwksCache.data = some jwks) (hjne : jwks ≠ [])
    (hjfresh : now - st.jwksCache.timestamp.getD 0 < env.jwksTtl)
    (hiss : dictGet disc "issuer" = some issVal)
    (hkid : kid ≠ "")
    (hfind : findJwk kid jwks = some jwk)
    (hmat : jwk.material = some pk)
    (haudcfg : pyStrip env.clientId ≠ "")
    (haud : claims.aud = some (pyStrip env.clientId))
    (hciss : claims.iss = some issVal)
    (hexp : claims.exp = some e) (hfut : now < e) :
    verifySsoToken env netD netJ now
      ⟨some ⟨some kid, some alg⟩, claims, some pk⟩ st = (.ok claims, st) := by
  rw [verifySsoToken_cached env netD netJ now _ st disc jwks hd hdne hdfresh hj hjne hjfresh,
    hiss]
  have hnexp : ¬ e ≤ now := by omega
  simp [verifyTokenWithKeys, jwtDecode, jwtValidateAudIss, hkid, hfind, hmat, haudcfg, haud,
    hciss, hexp, hnexp]

/-- Witness for C4 at the spec's scenario: issuer `https://idp.example`,
one key `k1`, matching `aud`/`iss`, future `exp`; the returned claims equal
the encoded payload. -/
theorem c4_witness :
    verifySsoToken ⟨"https://idp/disc", "client-1", 3600, 3600⟩
      (.ok []) (.ok []) 0
      ⟨some ⟨some "k1", some "RS256"⟩,
        ⟨some 3600, some "client-1", some "https://idp.example", [("sub", "alice")]⟩,
        some 7⟩
      ⟨⟨some [("issuer", "https://idp.example"), ("jwks_uri", "https://idp.example/keys")],
          some 0⟩,
        ⟨some [("keys", [⟨some "k1", some 7⟩])], some 0⟩⟩ =
    (.ok ⟨some 3600, some "client-1", some "https://idp.example", [("sub", "alice")]⟩,
      ⟨⟨some [("issuer", "https://idp.example"), ("jwks_uri", "https://idp.example/keys")],
          some 0⟩,
        ⟨some [("keys", [⟨some "k1", some 7⟩])], some 0⟩⟩) := by
  exact c4_round_trip_valid_token_returns_payload _ _ _ 0 3600 _ _ _ "k1" "RS256"
    "https://idp.example" _ _ 7 rfl (by decide) (by decide) rfl (by decide) (by decide)
    (by decide) (by decide) rfl rfl (by decide) (by decide) rfl rfl (by decide)

/-- C5: among signature-and-claims validation failures (the `jwt.decode`
step), exactly two caller-visible outcomes exist — whenever that step
raises any `PyJWTError` at all, the caller sees 401 "Token expired" if the
error is the distinct `ExpiredSignatureError` and 401 "Invalid token" for
every other validation failure (bad signature, audience mismatch, issuer
mismatch, malformed claims), so callers cannot distinguish the cause beyond
expiry. -/
theorem c5_validation_failures_collapse_to_two_outcomes
    (env : Env) (netD : FetchResult Discovery) (netJ : FetchResult Jwks)
    (now : Int) (st : AuthState) (disc : Discovery) (jwks : Jwks)
    (token : Token) (h : Header) (kid : String) (jwk : Jwk) (pk : Nat)
    (err : PyJwtError)
    (hd : st.discoveryCache.data = some disc) (hdne : disc ≠ [])
    (hdfresh : now - st.discoveryCache.timestamp.getD 0 < env.discoveryTtl)
    (hj : st.jwksCache.data = some jwks) (hjne : jwks ≠ [])
    (hjfresh : now - st.jwksCache.timestamp.getD 0 < env.jwksTtl)
    (hth : token.header = some h) (hkid : h.kid = some kid) (hkidne : kid ≠ "")
    (hfind : findJwk kid jwks = some jwk) (hmat : jwk.material = some pk)
    (haudcfg : pyStrip env.clientId ≠ "")
    (hdec : jwtDecode token pk [h.alg.getD "RS256"] (pyStrip env.clientId)
      (dictGet disc "issuer") now = .error err) :
    verifySsoToken env netD netJ now token st =
      (.error (.http 401
        (if err = .expiredSignature then "Token expired" else "Invalid token")), st) := by
  rw [verifySsoToken_cached env netD netJ now token st disc jwks hd hdne hdfresh hj hjne
    hjfresh]
  simp only [verifyTokenWithKeys, hth, hkid, hkidne, hfind, hmat, haudcfg, hdec]
  rcases err <;> simp [hkidne, haudcfg]

/-- Witness for C5 at two concrete inputs: an expired token yields
401 "Token expired"; the same setup with a wrong audience (decode raising
`InvalidAudienceError`) yields 401 "Invalid token". -/
theorem c5_witness :
    verifySsoToken ⟨"https://idp/disc", "client-1", 3600, 3600⟩
      (.ok []) (.ok []) 5000
      ⟨some ⟨some "k1", some "RS256"⟩,
        ⟨some 1000, some "client-1", some "https://idp.example", []⟩, some 7⟩
      ⟨⟨some [("issuer", "https://idp.example")], some 5000⟩,
        ⟨some [("keys", [⟨some "k1", some 7⟩])], some 5000⟩⟩ =
    (.error (.http 401 "Token expired"),
      ⟨⟨some [("issuer", "https://idp.example")], some 5000⟩,
        ⟨some [("keys", [⟨some "k1", some 7⟩])], some 5000⟩⟩) ∧
    verifySsoToken ⟨"https://idp/disc", "client-1", 3600, 3600⟩
      (.ok []) (.ok []) 0
      ⟨some ⟨some "k1", some "RS256"⟩,
        ⟨some 1000, some "other-client", some "https://idp.example", []⟩, some 7⟩
      ⟨⟨some [("issuer", "https://idp.example")], some 0⟩,
        ⟨some [("keys", [⟨some "k1", some 7⟩])], some 0⟩⟩ =
    (.error (.http 401 "Invalid token"),
      ⟨⟨some [("issuer", "https://idp.example")], some 0⟩,
        ⟨some [("keys", [⟨some "k1", some 7⟩])], some 0⟩⟩) := by
  constructor
  · exact c5_validation_failures_collapse_to_two_outcomes _ _ _ 5000 _ _ _ _
      ⟨some "k1", some "RS256"⟩ "k1" ⟨some "k1", some 7⟩ 7 .expiredSignature rfl (by decide)
      (by decide) rfl (by decide) (by decide) rfl rfl (by decide) (by decide) rfl (by decide)
      rfl
  · exact c5_validation_failures_collapse_to_two_outcomes _ _ _ 0 _ _ _ _
      ⟨some "k1", some "RS256"⟩ "k1" ⟨some "k1", some 7⟩ 7 .invalidAudience rfl (by decide)
      (by decide) rfl (by decide) (by decide) rfl rfl (by decide) (by decide) rfl (by decide)
      rfl

/-- A linear scan returns the designated element when everything before it
fails the predicate and it satisfies the predicate. -/
lemma find?_first_match {α : Type} (p : α → Bool) (ks₁ ks₂ : List α) (k : α)
    (h₁ : ∀ x ∈ ks₁, p x = false) (hk : p k = true) :
    (ks₁ ++ k :: ks₂).find? p = some k := by
  induction ks₁ with
  | nil => simpa using List.find?_cons_of_pos _ hk
  | cons a l ih =>
    rw [List.cons_append, List.find?_cons_of_neg]
    · exact ih (fun x hx => h₁ x (List.mem_cons_of_mem a hx))
    · simp [h₁ a (List.mem_cons_self a l)]

/-- C8: signing-key lookup returns the first record, in the key set's
sequence order, whose `kid` equals the token header's `kid` (first match
wins when several records share an identifier); when no record matches, the
lookup is empty and `verify_sso_token` fails with 401 "Invalid token". -/
theorem c8_find_jwk_first_match_and_no_match_rejected :
    (∀ (kid : String) (jwks : Jwks) (ks₁ ks₂ : List Jwk) (k : Jwk),
      dictGet jwks "keys" = some (ks₁ ++ k :: ks₂) →
      (∀ k' ∈ ks₁, k'.kid ≠ some kid) →
      k.kid = some kid →
      findJwk kid jwks = some k) ∧
    (∀ (kid : String) (jwks : Jwks),
      (∀ k ∈ (dictGet jwks "keys").getD [], k.kid ≠ some kid) →
      findJwk kid jwks = none) ∧
    (∀ (env : Env) (netD : FetchResult Discovery) (netJ : FetchResult Jwks)
      (now : Int) (st : AuthState) (disc : Discovery) (jwks : Jwks)
      (claims : Claims) (sig : Option Nat) (alg : Option String) (kid : String),
      st.discoveryCache.data = some disc → disc ≠ [] →
      now - st.discoveryCache.timestamp.getD 0 < env.discoveryTtl →
      st.jwksCache.data = some jwks → jwks ≠ [] →
      now - st.jwksCache.timestamp.getD 0 < env.jwksTtl →
      kid ≠ "" →
      (∀ k ∈ (dictGet jwks "keys").getD [], k.kid ≠ some kid) →
      verifySsoToken env netD netJ now ⟨some ⟨some kid, alg⟩, claims, sig⟩ st =
        (.error (.http 401 "Invalid token"), st)) := by
  refine ⟨?_, ?_, ?_⟩
  · intro kid jwks ks₁ ks₂ k hkeys hnone hk
    unfold findJwk
    rw [hkeys, Option.getD_some]
    exact find?_first_match _ ks₁ ks₂ k (fun x hx => by simp [hnone x hx]) (by simp [hk])
  · intro kid jwks hnone
    unfold findJwk
    exact List.find?_eq_none.mpr (fun x hx => by simp [hnone x hx])
  · intro env netD netJ now st disc jwks claims sig alg kid hd hdne hdfresh hj hjne hjfresh
      hkid hnone
    rw [verifySsoToken_cached env netD netJ now _ st disc jwks hd hdne hdfresh hj hjne
      hjfresh]
    have hfind : findJwk kid jwks = none := by
      unfold findJwk
      exact List.find?_eq_none.mpr (fun x hx => by simp [hnone x hx])
    simp [verifyTokenWithKeys, hkid, hfind]

/-- Witness for C8: with keys `k0, k1(material 1), k1(material 2)` the
lookup of `k1` returns the first `k1` record; a `kid` absent from the key
set yields no record, and verification of such a token fails with
401 "Invalid token". -/
theorem c8_witness :
    findJwk "k1" [("keys", [⟨some "k0", some 9⟩, ⟨some "k1", some 1⟩, ⟨some "k1", some 2⟩])]
      = some ⟨some "k1", some 1⟩ ∧
    findJwk "kX" [("keys", [⟨some "k0", some 9⟩, ⟨some "k1", some 1⟩])] = none ∧
    verifySsoToken ⟨"https://idp/disc", "client-1", 3600, 3600⟩ (.ok []) (.ok []) 0
      ⟨some ⟨some "kX", some "RS256"⟩, ⟨some 1000, some "client-1", none, []⟩, some 7⟩
      ⟨⟨some [("issuer", "https://idp.example")], some 0⟩,
        ⟨some [("keys", [⟨some "k0", some 9⟩, ⟨some "k1", some 1⟩])], some 0⟩⟩ =
    (.error (.http 401 "Invalid token"),
      ⟨⟨some [("issuer", "https://idp.example")], some 0⟩,
        ⟨some [("keys", [⟨some "k0", some 9⟩, ⟨some "k1", some 1⟩])], some 0⟩⟩) := by
  refine ⟨?_, ?_, ?_⟩
  · exact c8_find_jwk_first_match_and_no_match_rejected.1 "k1" _
      [⟨some "k0", some 9⟩] [⟨some "k1", some 2⟩] ⟨some "k1", some 1⟩
      (by decide) (by decide) (by decide)
  · exact c8_find_jwk_first_match_and_no_match_rejected.2.1 "kX" _ (by decide)
  · exact c8_find_jwk_first_match_and_no_match_rejected.2.2 _ _ _ 0 _ _ _ _ (some 7)
      (some "RS256") "kX" rfl (by decide) (by decide) rfl (by decide) (by decide)
      (by decide) (by decide)

/-- C10: a cache entry whose stored data is an empty (falsy) mapping is
treated as absent by both `_get_discovery` and `_get_jwks`: even when
`now - fetched_at < ttl`, a fresh origin fetch is performed and stored — an
empty cached payload is never served as a cache hit. -/
theorem c10_falsy_cache_entry_is_never_served
    : (∀ (env : Env) (now ts : Int) (st : AuthState) (d' : Discovery),
        st.discoveryCache = ⟨some [], some ts⟩ →
        pyStrip env.discoveryUrl ≠ "" →
        now - ts < env.discoveryTtl →
        getDiscovery env (.ok d') now st =
          (.ok d', { st with discoveryCache := ⟨some d', some now⟩ })) ∧
      (∀ (env : Env) (netD : FetchResult Discovery) (now ts : Int) (st : AuthState)
        (disc : Discovery) (uri : String) (j' : Jwks),
        st.jwksCache = ⟨some [], some ts⟩ →
        st.discoveryCache.data = some disc → disc ≠ [] →
        now - st.discoveryCache.timestamp.getD 0 < env.discoveryTtl →
        dictGet disc "jwks_uri" = some uri → uri ≠ "" →
        now - ts < env.jwksTtl →
        getJwks env netD (.ok j') now st =
          (.ok j', { st with jwksCache := ⟨some j', some now⟩ })) := by
  constructor
  · intro env now ts st d' hentry hurl hfresh
    exact getDiscovery_miss_ok env now st d' hurl
      (fun d hd => Or.inl (by rw [hentry] at hd; exact (Option.some.inj hd).symm))
  · intro env netD now ts st disc uri j' hentry hd hdne hdfresh huri hune hfresh
    exact getJwks_miss_ok env netD now st disc j' uri hd hdne hdfresh
      (fun j hj => Or.inl (by rw [hentry] at hj; exact (Option.some.inj hj).symm))
      huri hune

/-- Witness for C10: both caches hold an empty dict stored at time 100;
a call at time 100 (well within the 3600s TTL) refetches and stores the
fresh payload. -/
theorem c10_witness :
    getDiscovery ⟨"https://idp/disc", "client-1", 3600, 3600⟩
        (.ok [("issuer", "I")]) 100 ⟨⟨some [], some 100⟩, ⟨none, none⟩⟩ =
      (.ok [("issuer", "I")], ⟨⟨some [("issuer", "I")], some 100⟩, ⟨none, none⟩⟩) ∧
    getJwks ⟨"https://idp/disc", "client-1", 3600, 3600⟩ (.ok [])
        (.ok [("keys", [])]) 100
        ⟨⟨some [("jwks_uri", "J")], some 100⟩, ⟨some [], some 100⟩⟩ =
      (.ok [("keys", [])],
        ⟨⟨some [("jwks_uri", "J")], some 100⟩, ⟨some [("keys", [])], some 100⟩⟩) := by
  constructor
  · exact c10_falsy_cache_entry_is_never_served.1 _ 100 100 _ _ rfl (by decide) (by decide)
  · exact c10_falsy_cache_entry_is_never_served.2 _ _ 100 100 _ [("jwks_uri", "J")] "J" _
      rfl rfl (by decide) (by decide) (by decide) (by decide) (by decide)

/-- Counterexample for C6 as stated: the discovery cache holds an existing
entry (data `[]`, the empty dict, stored at time 100) and the call at time
100 is within the 3600s TTL, yet the call does not return that entry's data
unchanged — it fetches, returns the fetched document and replaces the
entry. -/
theorem c6_counterexample :
    getDiscovery ⟨"https://idp/disc", "client-1", 3600, 3600⟩
        (.ok [("issuer", "I")]) 100 ⟨⟨some [], some 100⟩, ⟨none, none⟩⟩ =
      (.ok [("issuer", "I")], ⟨⟨some [("issuer", "I")], some 100⟩, ⟨none, none⟩⟩) ∧
    (100 : Int) - 100 < 3600 ∧
    ([("issuer", "I")] : Discovery) ≠ [] := by
  exact ⟨rfl, by decide, by decide⟩

/-- C6 as amended: for both caches, a call that finds an existing entry
with non-empty (truthy) data and `now - fetched_at < ttl` returns that
entry's data unchanged and performs no origin fetch; a call that finds no
entry, an entry with empty (falsy) data, or an entry with
`now - fetched_at ≥ ttl`, performs an origin fetch and on success stores
`{data, fetched_at: now}`, replacing any prior entry, and returns the new
data. -/
theorem c6_amended_cache_hit_and_refresh
    : (∀ (env : Env) (netD : FetchResult Discovery) (now : Int) (st : AuthState)
        (d : Discovery),
        st.discoveryCache.data = some d → d ≠ [] →
        now - st.discoveryCache.timestamp.getD 0 < env.discoveryTtl →
        getDiscovery env netD now st = (.ok d, st)) ∧
      (∀ (env : Env) (now : Int) (st : AuthState) (d' : Discovery),
        pyStrip env.discoveryUrl ≠ "" →
        (∀ d, st.discoveryCache.data = some d →
          d = [] ∨ env.discoveryTtl ≤ now - st.discoveryCache.timestamp.getD 0) →
        getDiscovery env (.ok d') now st =
          (.ok d', { st with discoveryCache := ⟨some d', some now⟩ })) ∧
      (∀ (env : Env) (netD : FetchResult Discovery) (netJ : FetchResult Jwks)
        (now : Int) (st : AuthState) (j : Jwks),
        st.jwksCache.data = some j → j ≠ [] →
        now - st.jwksCache.timestamp.getD 0 < env.jwksTtl →
        getJwks env netD netJ now st = (.ok j, st)) ∧
      (∀ (env : Env) (netD : FetchResult Discovery) (now : Int) (st : AuthState)
        (disc : Discovery) (j' : Jwks) (uri : String),
        st.discoveryCache.data = some disc → disc ≠ [] →
        now - st.discoveryCache.timestamp.getD 0 < env.discoveryTtl →
        (∀ j, st.jwksCache.data = some j →
          j = [] ∨ env.jwksTtl ≤ now - st.jwksCache.timestamp.getD 0) →
        dictGet disc "jwks_uri" = some uri → uri ≠ "" →
        getJwks env netD (.ok j') now st =
          (.ok j', { st with jwksCache := ⟨some j', some now⟩ })) := by
  refine ⟨?_, ?_, ?_, ?_⟩
  · intro env netD now st d hd hne hfresh
    exact getDiscovery_hit env netD now st d hd hne hfresh
  · intro env now st d' hurl hmiss
    exact getDiscovery_miss_ok env now st d' hurl hmiss
  · intro env netD netJ now st j hj hne hfresh
    exact getJwks_hit env netD netJ now st j hj hne hfresh
  · intro env netD now st disc j' uri hd hdne hdfresh hjmiss huri hune
    exact getJwks_miss_ok env netD now st disc j' uri hd hdne hdfresh hjmiss huri hune

/-- Witness for C6 as amended: a fresh truthy entry is served unchanged; an
absent entry triggers a stored refresh, for both caches. -/
theorem c6_witness :
    getDiscovery ⟨"https://idp/disc", "client-1", 3600, 3600⟩ (.error .transport) 100
        ⟨⟨some [("issuer", "I")], some 100⟩, ⟨none, none⟩⟩ =
      (.ok [("issuer", "I")], ⟨⟨some [("issuer", "I")], some 100⟩, ⟨none, none⟩⟩) ∧
    getDiscovery ⟨"https://idp/disc", "client-1", 3600, 3600⟩ (.ok [("issuer", "I")]) 100
        AuthState.initial =
      (.ok [("issuer", "I")], ⟨⟨some [("issuer", "I")], some 100⟩, ⟨none, none⟩⟩) ∧
    getJwks ⟨"https://idp/disc", "client-1", 3600, 3600⟩ (.error .transport)
        (.error .transport) 100
        ⟨⟨none, none⟩, ⟨some [("keys", [])], some 100⟩⟩ =
      (.ok [("keys", [])], ⟨⟨none, none⟩, ⟨some [("keys", [])], some 100⟩⟩) ∧
    getJwks ⟨"https://idp/disc", "client-1", 3600, 3600⟩ (.error .transport)
        (.ok [("keys", [])]) 100
        ⟨⟨some [("jwks_uri", "J")], some 100⟩, ⟨none, none⟩⟩ =
      (.ok [("keys", [])],
        ⟨⟨some [("jwks_uri", "J")], some 100⟩, ⟨some [("keys", [])], some 100⟩⟩) := by
  refine ⟨?_, ?_, ?_, ?_⟩
  · exact c6_amended_cache_hit_and_refresh.1 _ _ 100 _ _ rfl (by decide) (by decide)
  · exact c6_amended_cache_hit_and_refresh.2.1 _ 100 _ _ (by decide)
      (fun d hd => by simp [AuthState.initial] at hd)
  · exact c6_amended_cache_hit_and_refresh.2.2.1 _ _ _ 100 _ _ rfl (by decide) (by decide)
  · exact c6_amended_cache_hit_and_refresh.2.2.2 _ _ 100 _ [("jwks_uri", "J")] _ "J" rfl
      (by decide) (by decide) (fun j hj => by simp at hj) (by decide) (by decide)

/-- C7: when the origin fetch performed on a cache miss fails, the
corresponding cache entry is left exactly as it was before the call and the
error propagates — in full generality, any erroring `_get_discovery` call
leaves the whole state unchanged, any erroring `_get_jwks` call leaves the
key-set entry unchanged, and on a miss a failing fetch propagates the fetch
exception with the state intact. -/
theorem c7_failed_refresh_leaves_cache_untouched
    : (∀ (env : Env) (netD : FetchResult Discovery) (now : Int) (st : AuthState)
        (err : AuthError),
        (getDiscovery env netD now st).1 = .error err →
        (getDiscovery env netD now st).2 = st) ∧
      (∀ (env : Env) (netD : FetchResult Discovery) (netJ : FetchResult Jwks)
        (now : Int) (st : AuthState) (err : AuthError),
        (getJwks env netD netJ now st).1 = .error err →
        (getJwks env netD netJ now st).2.jwksCache = st.jwksCache) ∧
      (∀ (env : Env) (now : Int) (st : AuthState) (e : FetchError),
        pyStrip env.discoveryUrl ≠ "" →
        (∀ d, st.discoveryCache.data = some d →
          d = [] ∨ env.discoveryTtl ≤ now - st.discoveryCache.timestamp.getD 0) →
        getDiscovery env (.error e) now st = (.error (.fetch e), st)) ∧
      (∀ (env : Env) (netD : FetchResult Discovery) (now : Int) (st : AuthState)
        (disc : Discovery) (uri : String) (e : FetchError),
        st.discoveryCache.data = some disc → disc ≠ [] →
        now - st.discoveryCache.timestamp.getD 0 < env.discoveryTtl →
        (∀ j, st.jwksCache.data = some j →
          j = [] ∨ env.jwksTtl ≤ now - st.jwksCache.timestamp.getD 0) →
        dictGet disc "jwks_uri" = some uri → uri ≠ "" →
        getJwks env netD (.error e) now st = (.error (.fetch e), st)) := by
  refine ⟨?_, ?_, ?_, ?_⟩
  · intro env netD now st err h
    exact getDiscovery_error_state env netD now st err h
  · intro env netD netJ now st err h
    exact getJwks_error_jwksCache env netD netJ now st err h
  · intro env now st e hurl hmiss
    exact getDiscovery_miss_err env now st e hurl hmiss
  · intro env netD now st disc uri e hd hdne hdfresh hjmiss huri hune
    exact getJwks_miss_err env netD now st disc e uri hd hdne hdfresh hjmiss huri hune

/-- Witness for C7: failing fetches on empty caches propagate the fetch
error and leave the state exactly as before. -/
theorem c7_witness :
    (getDiscovery ⟨"https://idp/disc", "client-1", 3600, 3600⟩ (.error .transport) 0
      AuthState.initial).2 = AuthState.initial ∧
    (getJwks ⟨"https://idp/disc", "client-1", 3600, 3600⟩ (.error (.httpStatus 503))
      (.error .transport) 0 AuthState.initial).2.jwksCache = AuthState.initial.jwksCache ∧
    getDiscovery ⟨"https://idp/disc", "client-1", 3600, 3600⟩ (.error .transport) 0
      AuthState.initial = (.error (.fetch .transport), AuthState.initial) ∧
    getJwks ⟨"https://idp/disc", "client-1", 3600, 3600⟩ (.ok [])
        (.error (.httpStatus 500)) 100
        ⟨⟨some [("jwks_uri", "J")], some 100⟩, ⟨none, none⟩⟩ =
      (.error (.fetch (.httpStatus 500)),
        ⟨⟨some [("jwks_uri", "J")], some 100⟩, ⟨none, none⟩⟩) := by
  refine ⟨?_, ?_, ?_, ?_⟩
  · exact c7_failed_refresh_leaves_cache_untouched.1 _ _ 0 _ (.fetch .transport) rfl
  · exact c7_failed_refresh_leaves_cache_untouched.2.1 _ _ _ 0 _
      (.fetch (.httpStatus 503)) rfl
  · exact c7_failed_refresh_leaves_cache_untouched.2.2.1 _ 0 _ _ (by decide)
      (fun d hd => by simp [AuthState.initial] at hd)
  · exact c7_failed_refresh_leaves_cache_untouched.2.2.2 _ _ 100 _ [("jwks_uri", "J")] "J" _
      rfl (by decide) (by decide) (fun j hj => by simp at hj) (by decide) (by decide)

/-- Counterexample for C1 as stated: with an empty cache and a failing
discovery fetch, `verify_sso_token` surfaces the raw fetch exception — an
error class distinct from the 401 "Invalid token" authentication failure a
bad token produces, so the caller can distinguish the two. -/
theorem c1_counterexample :
    (verifySsoToken ⟨"https://idp/disc", "client-1", 3600, 3600⟩ (.error .transport)
        (.ok []) 0
        ⟨some ⟨some "k1", some "RS256"⟩, ⟨some 1000, some "client-1", none, []⟩, some 7⟩
        AuthState.initial).1 = .error (.fetch .transport) ∧
    AuthError.fetch .transport ≠ AuthError.http 401 "Invalid token" := by
  exact ⟨rfl, by decide⟩

/-- C1 as amended: when the discovery or key-set origin fetch attempted
during `verify_sso_token` fails, the failure propagates to the immediate
caller as the underlying fetch exception — an error class distinct from the
401 authentication failures — and the state is unchanged; it is not
converted into an authentication failure. -/
theorem c1_amended_fetch_error_propagates_raw
    : (∀ (env : Env) (netJ : FetchResult Jwks) (now : Int) (token : Token)
        (st : AuthState) (e : FetchError),
        pyStrip env.discoveryUrl ≠ "" →
        (∀ d, st.discoveryCache.data = some d →
          d = [] ∨ env.discoveryTtl ≤ now - st.discoveryCache.timestamp.getD 0) →
        verifySsoToken env (.error e) netJ now token st = (.error (.fetch e), st)) ∧
      (∀ (env : Env) (netD : FetchResult Discovery) (now : Int) (token : Token)
        (st : AuthState) (disc : Discovery) (uri : String) (e : FetchError),
        st.discoveryCache.data = some disc → disc ≠ [] →
        now - st.discoveryCache.timestamp.getD 0 < env.discoveryTtl →
        (∀ j, st.jwksCache.data = some j →
          j = [] ∨ env.jwksTtl ≤ now - st.jwksCache.timestamp.getD 0) →
        dictGet disc "jwks_uri" = some uri → uri ≠ "" →
        verifySsoToken env netD (.error e) now token st = (.error (.fetch e), st)) := by
  constructor
  · intro env netJ now token st e hurl hmiss
    unfold verifySsoToken
    rw [getDiscovery_miss_err env now st e hurl hmiss]
  · intro env netD now token st disc uri e hd hdne hdfresh hjmiss huri hune
    unfold verifySsoToken
    rw [getDiscovery_hit env netD now st disc hd hdne hdfresh]
    dsimp only
    rw [getJwks_miss_err env netD now st disc e uri hd hdne hdfresh hjmiss huri hune]

/-- Witness for C1 as amended: both a failing discovery fetch and a failing
key-set fetch surface as the raw fetch exception. -/
theorem c1_witness :
    verifySsoToken ⟨"https://idp/disc", "client-1", 3600, 3600⟩ (.error .transport)
        (.ok []) 0
        ⟨some ⟨some "k1", some "RS256"⟩, ⟨some 1000, some "client-1", none, []⟩, some 7⟩
        AuthState.initial =
      (.error (.fetch .transport), AuthState.initial) ∧
    verifySsoToken ⟨"https://idp/disc", "client-1", 3600, 3600⟩ (.ok [])
        (.error (.httpStatus 502)) 100
        ⟨some ⟨some "k1", some "RS256"⟩, ⟨some 1000, some "client-1", none, []⟩, some 7⟩
        ⟨⟨some [("jwks_uri", "J")], some 100⟩, ⟨none, none⟩⟩ =
      (.error (.fetch (.httpStatus 502)),
        ⟨⟨some [("jwks_uri", "J")], some 100⟩, ⟨none, none⟩⟩) := by
  constructor
  · exact c1_amended_fetch_error_propagates_raw.1 _ _ 0 _ _ .transport (by decide)
      (fun d hd => by simp [AuthState.initial] at hd)
  · exact c1_amended_fetch_error_propagates_raw.2 _ _ 100 _ _ [("jwks_uri", "J")] "J"
      (.httpStatus 502) rfl (by decide) (by decide) (fun j hj => by simp at hj)
      (by decide) (by decide)

/-- Counterexample for C2 as stated: for a token whose header segment is
malformed, `verify_sso_token` does not stop before the cache reads — with
an empty cache and succeeding fetches the discovery document is fetched and
stored (origin I/O occurs), and with a failing discovery fetch the call
fails with the fetch exception instead of 401 "Invalid token". -/
theorem c2_counterexample :
    (verifySsoToken ⟨"https://idp/disc", "client-1", 3600, 3600⟩
        (.ok [("issuer", "I"), ("jwks_uri", "J")]) (.ok [("keys", [])]) 0
        ⟨none, ⟨none, none, none, []⟩, none⟩ AuthState.initial).2.discoveryCache.data =
      some [("issuer", "I"), ("jwks_uri", "J")] ∧
    (verifySsoToken ⟨"https://idp/disc", "client-1", 3600, 3600⟩ (.error .transport)
        (.ok [("keys", [])]) 0
        ⟨none, ⟨none, none, none, []⟩, none⟩ AuthState.initial).1 =
      .error (.fetch .transport) := by
  exact ⟨rfl, rfl⟩

/-- C2 as amended: for every token whose header segment is malformed,
`verify_sso_token` fails with the unauthenticated 401 "Invalid token" error
at the parse-header step — but only after `_get_discovery()` and
`_get_jwks()` have been called: the call ends in whatever state those cache
reads produce, so origin I/O may occur for such a token (and a failing
fetch preempts the "Invalid token" error). -/
theorem c2_amended_malformed_header_rejected_after_cache_reads
    (env : Env) (netD : FetchResult Discovery) (netJ : FetchResult Jwks)
    (now : Int) (token : Token) (st st₁ st₂ : AuthState) (disc : Discovery) (j : Jwks)
    (htok : token.header = none)
    (hD : getDiscovery env netD now st = (.ok disc, st₁))
    (hJ : getJwks env netD netJ now st₁ = (.ok j, st₂)) :
    verifySsoToken env netD netJ now token st =
      (.error (.http 401 "Invalid token"), st₂) := by
  unfold verifySsoToken
  rw [hD]
  dsimp only
  rw [hJ]
  simp [verifyTokenWithKeys, htok]

/-- Witness for C2 as amended: a malformed-header token is rejected with
401 "Invalid token", in the state left behind by the two (performed) cache
refreshes. -/
theorem c2_witness :
    verifySsoToken ⟨"https://idp/disc", "client-1", 3600, 3600⟩
        (.ok [("issuer", "I"), ("jwks_uri", "J")]) (.ok [("keys", [])]) 0
        ⟨none, ⟨none, none, none, []⟩, none⟩ AuthState.initial =
      (.error (.http 401 "Invalid token"),
        ⟨⟨some [("issuer", "I"), ("jwks_uri", "J")], some 0⟩,
          ⟨some [("keys", [])], some 0⟩⟩) := by
  exact c2_amended_malformed_header_rejected_after_cache_reads _ _ _ 0 _ _ _ _
    [("issuer", "I"), ("jwks_uri", "J")] [("keys", [])] rfl rfl rfl

/-- String append acts as list append on the underlying characters. -/
lemma str_data_append (s t : String) : (s ++ t).data = s.data ++ t.data := by
  cases s
  cases t
  rfl

/-- Taking exactly the length of the left part of an append returns it. -/
lemma take_length_append {α : Type} (l₁ l₂ : List α) :
    (l₁ ++ l₂).take l₁.length = l₁ := by
  simp

/-- Splitting on the first space skips a space-free left part. -/
lemma afterFirstSpace_append (l t : List Char) (h : ∀ c ∈ l, c ≠ ' ') :
    afterFirstSpace (l ++ ' ' :: t) = t := by
  induction l with
  | nil => simp [afterFirstSpace]
  | cons c l ih =>
    rw [List.cons_append]
    unfold afterFirstSpace
    rw [if_neg (h c (List.mem_cons_self c l))]
    exact ih (fun x hx => h x (List.mem_cons_of_mem c hx))

/-- C9: bearer extraction — when the authorization header starts,
case-insensitively on the scheme word, with the prefix `Bearer `, the
remainder is returned with surrounding whitespace trimmed; when the header
is absent or does not start with that prefix, extraction fails with the
unauthenticated 401 "Missing token" error and nothing else happens. -/
theorem c9_bearer_extraction
    : (∀ (scheme rest : String), pyLower scheme = "bearer" →
        extractBearerToken (some (scheme ++ " " ++ rest)) = .ok (pyStrip rest)) ∧
      extractBearerToken none = .error (.http 401 "Missing token") ∧
      (∀ hdr : String, pyStartsWith (pyLower hdr) "bearer " = false →
        extractBearerToken (some hdr) = .error (.http 401 "Missing token")) := by
  refine ⟨?_, rfl, ?_⟩
  · intro scheme rest hlow
    have hdata : scheme.data.map Char.toLower = "bearer".data := by
      have h := congrArg String.data hlow
      simpa [pyLower] using h
    have hnos : ∀ c ∈ scheme.data, c ≠ ' ' := by
      intro c hc heq
      subst heq
      have hmem : Char.toLower ' ' ∈ "bearer".data := by
        rw [← hdata]
        exact List.mem_map_of_mem _ hc
      exact absurd hmem (by decide)
    have h1 : (scheme ++ " " ++ rest).data = scheme.data ++ ' ' :: rest.data := by
      rw [str_data_append, str_data_append]
      simp
    have hsp : Char.toLower ' ' = ' ' := by decide
    have hseven : ("bearer ".data) = "bearer".data ++ [' '] := by decide
    have hguard : pyStartsWith (pyLower (scheme ++ " " ++ rest)) "bearer " = true := by
      unfold pyStartsWith pyLower
      show ((scheme ++ " " ++ rest).data.map Char.toLower).take "bearer ".data.length
          == "bearer ".data
      rw [h1, List.map_append, List.map_cons, hdata, hsp, hseven]
      rw [show "bearer".data ++ ' ' :: (rest.data.map Char.toLower)
          = ("bearer".data ++ [' ']) ++ (rest.data.map Char.toLower) by simp]
      rw [take_length_append]
      simp
    unfold extractBearerToken
    simp only [Option.getD_some, hguard, if_true]
    rw [h1, afterFirstSpace_append scheme.data rest.data hnos]
  · intro hdr hguard
    unfold extractBearerToken
    simp [hguard]

/-- Witness for C9 at the spec's examples: `Bearer abc123` yields `abc123`;
`Token abc123` and an absent header both fail as "Missing token". -/
theorem c9_witness :
    extractBearerToken (some "Bearer abc123") = .ok "abc123" ∧
    extractBearerToken (some "Token abc123") = .error (.http 401 "Missing token") ∧
    extractBearerToken none = .error (.http 401 "Missing token") := by
  refine ⟨?_, ?_, ?_⟩
  · exact c9_bearer_extraction.1 "Bearer" "abc123" (by decide)
  · exact c9_bearer_extraction.2.2 "Token abc123" (by decide)
  · exact c9_bearer_extraction.2.1
